import Mathlib

/-!
Formal model of the estimate-stabilization and synchronization core of the
freedom-pulse dashboard (`src/src/App.jsx`), together with proofs of the
behavioural properties stated in its specification.

JavaScript numbers are modelled by exact rationals (`ℚ`), `Math.round` by an
explicit half-up rounding into `ℤ`, nullable values by `Option`, and the
fallible network/parse steps by explicit outcome types.  Every definition is
translated from the source file; line numbers in doc comments refer to
`src/src/App.jsx`.
-/

namespace FreedomPulse

/-- JavaScript `Math.round`: nearest integer, with halves rounded toward
positive infinity, i.e. `Math.round(x) = ⌊x + 1/2⌋`. -/
def jsRound (q : ℚ) : ℤ := ⌊q + 1/2⌋

/-- The "Heavy Stabilization" block of `checkAndRunUpdate` (lines 224-238):

```js
let stabilizedTotal = incomingTotal;
if (totalActive > 0) {
  if (incomingTotal < totalActive) {
    stabilizedTotal = Math.max(incomingTotal, Math.round(totalActive * 0.95));
  } else {
    stabilizedTotal = Math.round(totalActive * 0.9 + incomingTotal * 0.1);
  }
} else if (incomingTotal > 0) {
  stabilizedTotal = incomingTotal;
}
```

In the source, `stabilizedTotal` is initialised to `incomingTotal` and the
`else if (incomingTotal > 0)` branch assigns that same value again, so when
`totalActive <= 0` the result is `incomingTotal` in all cases. -/
def stabilize (totalActive incomingTotal : ℚ) : ℚ :=
  if 0 < totalActive then
    if incomingTotal < totalActive then
      max incomingTotal ((jsRound (totalActive * (95/100)) : ℤ) : ℚ)
    else
      ((jsRound (totalActive * (9/10) + incomingTotal * (1/10)) : ℤ) : ℚ)
  else
    incomingTotal

/-- The `apiStatus` React state values used by `App.jsx`. -/
inductive ApiStatus
  | idle
  | loading
  | success
  | error

/-- The `total` field of a payload produced by `JSON.parse`: either a (finite)
number, or some non-number JSON value (string, null, absent field, ...).
`JSON.parse` can never produce `NaN` or `undefined`. -/
inductive JsonTotal
  | num (q : ℚ)
  | notNum

/-- `typeof data.total === 'number' ? data.total : 0` (line 225). -/
def jsonTotalValue : JsonTotal → ℚ
  | JsonTotal.num q => q
  | JsonTotal.notNum => 0

/-- The per-process React view state touched by the refresh cycle
(lines 109-119).  `lastUpdated` is an epoch-milliseconds timestamp,
`none` standing for the initial `null`. -/
structure AppState where
  totalActive : ℚ
  trend : String
  headlines : List String
  lastUpdated : Option ℕ
  apiStatus : ApiStatus
  errorDetails : String

/-- The initial React state (lines 109-119). -/
def initialState : AppState :=
  { totalActive := 0
    trend := "stable"
    headlines := ["در حال همگام‌سازی..."]
    lastUpdated := none
    apiStatus := ApiStatus.idle
    errorDetails := "" }

/-- Ambient configuration of one client process: `isLocalMode` is `!db`
(no store configured) and `hasUser` records whether the anonymous auth
identity `user` has been established; `uid` is `user.uid`. -/
structure Config where
  isLocalMode : Bool
  hasUser : Bool
  uid : String

/-- A client in local mode: no store, hence no auth identity either. -/
def localConfig : Config :=
  { isLocalMode := true, hasUser := false, uid := "" }

/-- A client in shared mode with an established anonymous identity. -/
def sharedConfig : Config :=
  { isLocalMode := false, hasUser := true, uid := "client-a" }

/-- `const stalenessThreshold = 60 * 1000` (line 191), in milliseconds. -/
def stalenessThreshold : ℕ := 60 * 1000

/-- `const needsUpdate = !lastUpdated || (now - lastUpdated > stalenessThreshold)`
(line 192).  `now` and the timestamp are epoch milliseconds; for `now` before
the timestamp, JavaScript computes a negative difference which is not greater
than the threshold, matching truncated `ℕ` subtraction here. -/
def needsUpdate (now : ℕ) (lastUpdated : Option ℕ) : Bool :=
  match lastUpdated with
  | none => true
  | some t => stalenessThreshold < now - t

/-- The message of the error thrown by `callGemini` on a non-ok HTTP response:
`throw new Error(`HTTP ${response.status}: ${errorText}`)` (line 90). -/
def httpErrorMessage (status : ℕ) (body : String) : String :=
  "HTTP " ++ toString status ++ ": " ++ body

/-- Outcome of the `fetch` to the estimate source, as seen by `callGemini`:
either a non-ok response carrying its status and body text, or an ok JSON
response whose `candidates?.[0]?.content?.parts?.[0]?.text` field is the
given optional string. -/
inductive HttpResponse
  | failure (status : ℕ) (body : String)
  | ok (text : Option String)

/-- `text.replace(/```json/g, '').replace(/```/g, '').trim()` (line 97). -/
def stripCodeFences (text : String) : String :=
  ((text.replace "```json" "").replace "```" "").trim

/-- `callGemini` (lines 67-105): on a non-ok response it throws an error whose
message contains the response body; on success it returns the extracted text
(defaulted to `"{}"` when absent), stripping code fences in search mode. -/
def callGemini (useSearch : Bool) (resp : HttpResponse) : Except String String :=
  match resp with
  | HttpResponse.failure status body => Except.error (httpErrorMessage status body)
  | HttpResponse.ok text? =>
      let text := text?.getD "\x7b\x7d"
      Except.ok (if useSearch then stripCodeFences text else text)

/-- Outcome of one refresh attempt, as consumed by `checkAndRunUpdate`:
the source call either throws (non-ok HTTP response), or returns text that
fails `JSON.parse`, or parses to a payload `{total, trend, headlines}`.
`trend`/`headlines` are `none` when the field is absent or falsy. -/
inductive TickInput
  | fetchFail (status : ℕ) (body : String)
  | parseFail (raw : String)
  | parsed (total : JsonTotal) (trend : Option String)
      (headlines : Option (List String))

/-- The document written to the shared store by `setDoc` (lines 248-254). -/
structure SnapshotWrite where
  total : ℚ
  trend : Option String
  headlines : Option (List String)
  timestamp : ℕ
  updatedBy : String

/-- One run of `checkAndRunUpdate` (lines 189-262), at time `now` (epoch
milliseconds), with `input` describing how the source call turns out if one
is made.  Returns the resulting view state, the document written to the
shared store (if any), and whether the estimate source was called.

Transcription notes:
* line 192: `needsUpdate`; line 193: `isLocalMode = !db`;
* line 195: `if (needsUpdate || isLocalMode)`;
* line 196: `if (!isLocalMode && !user) return;`
* line 198: `setApiStatus('loading')` — before the source call;
* lines 219-222: `JSON.parse` failure logs and returns, touching nothing else;
* lines 256-260: the `catch` records the thrown message and status 'error';
* lines 240-245: local mode commits the stabilized total to view state;
* lines 247-254: shared mode writes the snapshot to the store instead (the
  local view state then only advances via the `onSnapshot` push).  The store
  write is assumed to succeed here; its failure path is the same `catch`. -/
def checkAndRunUpdate (cfg : Config) (now : ℕ) (input : TickInput)
    (s : AppState) : AppState × Option SnapshotWrite × Bool :=
  if needsUpdate now s.lastUpdated || cfg.isLocalMode then
    if !cfg.isLocalMode && !cfg.hasUser then
      (s, none, false)
    else
      let s1 : AppState := { s with apiStatus := ApiStatus.loading }
      match input with
      | TickInput.fetchFail status body =>
          ({ s1 with apiStatus := ApiStatus.error
                     errorDetails := httpErrorMessage status body }, none, true)
      | TickInput.parseFail _ =>
          (s1, none, true)
      | TickInput.parsed total trend headlines =>
          let incomingTotal := jsonTotalValue total
          let stabilizedTotal := stabilize s.totalActive incomingTotal
          if cfg.isLocalMode then
            ({ s1 with
                totalActive := stabilizedTotal
                trend := trend.getD s1.trend
                headlines := headlines.getD s1.headlines
                lastUpdated := some now
                apiStatus := ApiStatus.success }, none, true)
          else
            (s1, some { total := stabilizedTotal
                        trend := trend
                        headlines := headlines
                        timestamp := now
                        updatedBy := cfg.uid }, true)
  else
    (s, none, false)

/-- A numeric-or-not field of a document read back from the shared store.
Unlike `JSON.parse` output, a stored number can be `NaN`. -/
inductive StoredNum
  | num (q : ℚ)
  | nan
  | notNum

/-- `typeof data.total === 'number' && !isNaN(data.total) ? data.total : 0`
(line 144). -/
def storedNumValue : StoredNum → ℚ
  | StoredNum.num q => q
  | StoredNum.nan => 0
  | StoredNum.notNum => 0

/-- A document delivered by the store subscription (`onSnapshot`). -/
structure StoredDoc where
  total : StoredNum
  trend : Option String
  headlines : Option (List String)
  timestamp : Option ℕ

/-- The `onSnapshot` callback for an existing document (lines 140-156):
`setTotalActive(validTotal)`, `setTrend(data.trend || 'stable')`, headlines
replaced only when an array is present, `setLastUpdated` only when
`data.timestamp` is truthy (`0` is falsy), and `setApiStatus('success')`. -/
def onSnapshotUpdate (data : StoredDoc) (s : AppState) : AppState :=
  { s with
      totalActive := storedNumValue data.total
      trend := data.trend.getD "stable"
      headlines := data.headlines.getD s.headlines
      lastUpdated :=
        match data.timestamp with
        | some t => if t = 0 then s.lastUpdated else some t
        | none => s.lastUpdated
      apiStatus := ApiStatus.success }

/-- One step of the display animation (lines 167-176):

```js
const target = typeof totalActive === 'number' && !isNaN(totalActive) ? totalActive : 0;
const current = typeof prev === 'number' && !isNaN(prev) ? prev : 0;
const diff = target - current;
if (Math.abs(diff) < 1) return target;
return current + diff * 0.05;
```

This is the numeric core on finite numbers, taking the already-guarded
target and current; `animateStepJS` below is the full step on raw
JavaScript values, including the IEEE-754 special values. -/
def animateStep (totalActive displayNumber : ℚ) : ℚ :=
  let diff := totalActive - displayNumber
  if |diff| < 1 then totalActive
  else displayNumber + diff * (5/100)

/-- A JavaScript number: a finite value, one of the two infinities, or
`NaN`.  `typeof x === 'number'` is true for all four. -/
inductive JSNumber
  | num (q : ℚ)
  | posInf
  | negInf
  | nan

/-- A JavaScript value as classified by the animator's guard: a number
(possibly infinite or `NaN`), `undefined`, or any other non-number value. -/
inductive JSVal
  | number (n : JSNumber)
  | undef
  | other

/-- `typeof x === 'number' && !isNaN(x) ? x : 0` (lines 170-171): substitutes
`0` for `NaN` and for non-numbers, but passes `±Infinity` through unchanged
(`typeof Infinity === 'number'` and `!isNaN(Infinity)` both hold). -/
def numOrZero : JSVal → JSNumber
  | JSVal.number JSNumber.nan => JSNumber.num 0
  | JSVal.number n => n
  | JSVal.undef => JSNumber.num 0
  | JSVal.other => JSNumber.num 0

/-- JavaScript subtraction on numbers: `NaN` propagates, and
`(±Infinity) - (±Infinity)` with equal signs is `NaN`. -/
def jsSub : JSNumber → JSNumber → JSNumber
  | JSNumber.nan, _ => JSNumber.nan
  | _, JSNumber.nan => JSNumber.nan
  | JSNumber.num a, JSNumber.num b => JSNumber.num (a - b)
  | JSNumber.num _, JSNumber.posInf => JSNumber.negInf
  | JSNumber.num _, JSNumber.negInf => JSNumber.posInf
  | JSNumber.posInf, JSNumber.num _ => JSNumber.posInf
  | JSNumber.posInf, JSNumber.posInf => JSNumber.nan
  | JSNumber.posInf, JSNumber.negInf => JSNumber.posInf
  | JSNumber.negInf, JSNumber.num _ => JSNumber.negInf
  | JSNumber.negInf, JSNumber.posInf => JSNumber.negInf
  | JSNumber.negInf, JSNumber.negInf => JSNumber.nan

/-- JavaScript addition on numbers: `NaN` propagates, and
`Infinity + (-Infinity)` is `NaN`. -/
def jsAdd : JSNumber → JSNumber → JSNumber
  | JSNumber.nan, _ => JSNumber.nan
  | _, JSNumber.nan => JSNumber.nan
  | JSNumber.num a, JSNumber.num b => JSNumber.num (a + b)
  | JSNumber.num _, JSNumber.posInf => JSNumber.posInf
  | JSNumber.num _, JSNumber.negInf => JSNumber.negInf
  | JSNumber.posInf, JSNumber.num _ => JSNumber.posInf
  | JSNumber.posInf, JSNumber.posInf => JSNumber.posInf
  | JSNumber.posInf, JSNumber.negInf => JSNumber.nan
  | JSNumber.negInf, JSNumber.num _ => JSNumber.negInf
  | JSNumber.negInf, JSNumber.posInf => JSNumber.nan
  | JSNumber.negInf, JSNumber.negInf => JSNumber.negInf

/-- Multiplication by the positive literal `0.05` (line 175): infinities
keep their sign, `NaN` propagates. -/
def jsMulPoint05 : JSNumber → JSNumber
  | JSNumber.num a => JSNumber.num (a * (5/100))
  | JSNumber.posInf => JSNumber.posInf
  | JSNumber.negInf => JSNumber.negInf
  | JSNumber.nan => JSNumber.nan

/-- `Math.abs` on a JavaScript number: `Math.abs(±Infinity) = Infinity`,
`Math.abs(NaN) = NaN`. -/
def jsAbs : JSNumber → JSNumber
  | JSNumber.num a => JSNumber.num |a|
  | JSNumber.posInf => JSNumber.posInf
  | JSNumber.negInf => JSNumber.posInf
  | JSNumber.nan => JSNumber.nan

/-- The JavaScript comparison `x < 1` (line 174): false when `x` is `NaN`
or `Infinity`. -/
def jsLtOne : JSNumber → Bool
  | JSNumber.num a => a < 1
  | JSNumber.posInf => false
  | JSNumber.negInf => true
  | JSNumber.nan => false

/-- The full animation step on raw JavaScript values (lines 167-176): both
the target (`totalActive`) and the previous displayed value go through the
guard, then `diff = target - current`, `if (Math.abs(diff) < 1) return
target`, else `return current + diff * 0.05` — all with IEEE-754 special
values modelled explicitly. -/
def animateStepJS (totalActive prev : JSVal) : JSNumber :=
  let target := numOrZero totalActive
  let current := numOrZero prev
  let diff := jsSub target current
  if jsLtOne (jsAbs diff) then target
  else jsAdd current (jsMulPoint05 diff)

/-! ## Helper lemmas -/

/-- `Math.round` is the identity on integers. -/
theorem jsRound_intCast (z : ℤ) : jsRound (z : ℚ) = z := by
  rw [jsRound, Int.floor_eq_iff]
  constructor
  · linarith
  · linarith

/-! ## Claims about the stabilizer -/

/-- Claim C1: for every `previousAccepted > 0` and every `incomingRaw` with
`0 ≤ incomingRaw < previousAccepted`, the stabilizer returns
`max(incomingRaw, round(previousAccepted * 0.95))`; in particular
`stabilize 1000 800 = 950`, and the result is never below
`round(previousAccepted * 0.95)`. -/
theorem stabilize_drop_protection :
    (∀ p i : ℤ, 0 < p → 0 ≤ i → i < p →
      stabilize (p : ℚ) (i : ℚ) =
        max (i : ℚ) ((jsRound ((p : ℚ) * (95/100)) : ℤ) : ℚ)) ∧
    stabilize 1000 800 = 950 ∧
    (∀ p i : ℤ, 0 < p → 0 ≤ i → i < p →
      ((jsRound ((p : ℚ) * (95/100)) : ℤ) : ℚ) ≤ stabilize (p : ℚ) (i : ℚ)) := by
  have hbranch : ∀ p i : ℤ, 0 < p → i < p →
      stabilize (p : ℚ) (i : ℚ) =
        max (i : ℚ) ((jsRound ((p : ℚ) * (95/100)) : ℤ) : ℚ) := by
    intro p i hp hip
    rw [stabilize, if_pos (by exact_mod_cast hp), if_pos (by exact_mod_cast hip)]
  refine ⟨fun p i hp _ hip => hbranch p i hp hip, ?_, ?_⟩
  · have h950 : ((jsRound ((1000 : ℚ) * (95/100)) : ℤ) : ℚ) = 950 := by
      rw [jsRound]
      norm_num
    rw [stabilize, if_pos (by norm_num), if_pos (by norm_num), h950,
      max_eq_right (by norm_num : (800 : ℚ) ≤ 950)]
  · intro p i hp _ hip
    rw [hbranch p i hp hip]
    exact le_max_right _ _

/-- Closed instance of `stabilize_drop_protection`. -/
theorem stabilize_drop_protection_witness :
    stabilize ((1000 : ℤ) : ℚ) ((800 : ℤ) : ℚ) =
      max ((800 : ℤ) : ℚ) ((jsRound (((1000 : ℤ) : ℚ) * (95/100)) : ℤ) : ℚ) :=
  stabilize_drop_protection.1 1000 800 (by norm_num) (by norm_num) (by norm_num)

/-- Claim C2: for every `previousAccepted > 0` and every
`incomingRaw ≥ previousAccepted`, the stabilizer returns
`round(previousAccepted * 0.9 + incomingRaw * 0.1)`; in particular
`stabilize 1000 1200 = 1020`, and `stabilize p p = p` for every `p ≥ 0`. -/
theorem stabilize_rise_smoothing :
    (∀ p i : ℤ, 0 < p → p ≤ i →
      stabilize (p : ℚ) (i : ℚ) =
        ((jsRound ((p : ℚ) * (9/10) + (i : ℚ) * (1/10)) : ℤ) : ℚ)) ∧
    stabilize 1000 1200 = 1020 ∧
    (∀ p : ℤ, 0 ≤ p → stabilize (p : ℚ) (p : ℚ) = (p : ℚ)) := by
  have hbranch : ∀ p i : ℤ, 0 < p → p ≤ i →
      stabilize (p : ℚ) (i : ℚ) =
        ((jsRound ((p : ℚ) * (9/10) + (i : ℚ) * (1/10)) : ℤ) : ℚ) := by
    intro p i hp hpi
    rw [stabilize, if_pos (by exact_mod_cast hp),
      if_neg (not_lt.mpr (by exact_mod_cast hpi))]
  refine ⟨hbranch, ?_, ?_⟩
  · rw [stabilize, if_pos (by norm_num), if_neg (by norm_num), jsRound]
    norm_num
  · intro p hp
    rcases hp.lt_or_eq with h | h
    · rw [hbranch p p h le_rfl,
        show (p : ℚ) * (9/10) + (p : ℚ) * (1/10) = ((p : ℤ) : ℚ) by ring,
        jsRound_intCast]
    · rw [← h]
      rw [show ((0 : ℤ) : ℚ) = (0 : ℚ) by norm_num, stabilize, if_neg (lt_irrefl 0)]

/-- Closed instance of `stabilize_rise_smoothing`. -/
theorem stabilize_rise_smoothing_witness :
    stabilize ((1000 : ℤ) : ℚ) ((1200 : ℤ) : ℚ) =
      ((jsRound (((1000 : ℤ) : ℚ) * (9/10) + ((1200 : ℤ) : ℚ) * (1/10)) : ℤ) : ℚ) :=
  stabilize_rise_smoothing.1 1000 1200 (by norm_num) (by norm_num)

/-- Claim C3: when the previous accepted total is `0`, the stabilizer accepts
the raw value unchanged: `stabilize 0 X = X` for every `X ≥ 0` (bootstrap
case). -/
theorem stabilize_bootstrap :
    ∀ X : ℤ, 0 ≤ X → stabilize 0 (X : ℚ) = (X : ℚ) := by
  intro X _
  rw [stabilize, if_neg (lt_irrefl 0)]

/-- Closed instance of `stabilize_bootstrap`. -/
theorem stabilize_bootstrap_witness :
    stabilize 0 ((5000 : ℤ) : ℚ) = ((5000 : ℤ) : ℚ) :=
  stabilize_bootstrap 5000 (by norm_num)

/-! ## Claims about the refresh scheduler -/

/-- The estimate source is called in exactly the runs where the staleness
gate (line 195) passes and, in shared mode, the identity guard (line 196)
does not bail out. -/
theorem checkAndRunUpdate_fetches (cfg : Config) (now : ℕ) (input : TickInput)
    (s : AppState) :
    (checkAndRunUpdate cfg now input s).2.2 =
      ((needsUpdate now s.lastUpdated || cfg.isLocalMode) &&
        (cfg.isLocalMode || cfg.hasUser)) := by
  rw [checkAndRunUpdate]
  cases hnu : needsUpdate now s.lastUpdated <;> cases hl : cfg.isLocalMode <;>
    cases hu : cfg.hasUser <;> cases input <;>
      simp [hnu, hl, hu, apply_ite]

/-- A run of `checkAndRunUpdate` never changes `lastUpdated` unless it commits
a successfully parsed payload in local mode. -/
theorem checkAndRunUpdate_lastUpdated_of_fail (cfg : Config) (now : ℕ)
    (input : TickInput) (s : AppState)
    (h : ∀ total trend headlines, input ≠ TickInput.parsed total trend headlines) :
    (checkAndRunUpdate cfg now input s).1.lastUpdated = s.lastUpdated := by
  rw [checkAndRunUpdate]
  cases hnu : needsUpdate now s.lastUpdated <;> cases hl : cfg.isLocalMode <;>
    cases hu : cfg.hasUser <;> cases input <;>
      simp_all [apply_ite]

/-- Claim C4: with the 60-second staleness threshold, a shared-mode tick (with
identity established) 30 seconds after the last snapshot's timestamp performs
no refresh, a tick 61 seconds after it performs exactly one refresh, and a
tick with no prior snapshot always needs a refresh. -/
theorem scheduler_staleness_gate :
    (∀ (cfg : Config) (t : ℕ) (input : TickInput) (s : AppState),
      cfg.isLocalMode = false → cfg.hasUser = true → s.lastUpdated = some t →
      (checkAndRunUpdate cfg (t + 30 * 1000) input s).2.2 = false ∧
      (checkAndRunUpdate cfg (t + 61 * 1000) input s).2.2 = true) ∧
    (∀ now : ℕ, needsUpdate now none = true) := by
  refine ⟨?_, fun _ => rfl⟩
  intro cfg t input s hl hu hlast
  have h30 : needsUpdate (t + 30 * 1000) s.lastUpdated = false := by
    rw [hlast]
    simp only [needsUpdate, stalenessThreshold]
    have : t + 30 * 1000 - t = 30 * 1000 := by omega
    rw [this]
    norm_num
  have h61 : needsUpdate (t + 61 * 1000) s.lastUpdated = true := by
    rw [hlast]
    simp only [needsUpdate, stalenessThreshold]
    have : t + 61 * 1000 - t = 61 * 1000 := by omega
    rw [this]
    norm_num
  constructor <;> rw [checkAndRunUpdate_fetches] <;> simp [h30, h61, hl, hu]

/-- Closed instance of `scheduler_staleness_gate`: last snapshot at time 0,
shared mode with identity. -/
theorem scheduler_staleness_gate_witness :
    (checkAndRunUpdate sharedConfig (0 + 30 * 1000) (TickInput.parseFail "x")
        { initialState with lastUpdated := some 0 }).2.2 = false ∧
      (checkAndRunUpdate sharedConfig (0 + 61 * 1000) (TickInput.parseFail "x")
        { initialState with lastUpdated := some 0 }).2.2 = true :=
  scheduler_staleness_gate.1 sharedConfig 0 (TickInput.parseFail "x")
    { initialState with lastUpdated := some 0 } rfl rfl rfl

/-- Claim C10: in local mode every scheduler tick performs a refresh attempt,
whatever the age of the last snapshot; the staleness gate constrains
refreshes only in shared mode, where (given identity) the source is called
exactly when `needsUpdate` holds, and more generally the fetch branch is
taken iff `needsUpdate OR isLocalMode` (modulo the identity guard). -/
theorem local_mode_always_fetches :
    ∀ (cfg : Config) (now : ℕ) (input : TickInput) (s : AppState),
      (cfg.isLocalMode = true → (checkAndRunUpdate cfg now input s).2.2 = true) ∧
      (cfg.hasUser = true →
        (checkAndRunUpdate cfg now input s).2.2 =
          (needsUpdate now s.lastUpdated || cfg.isLocalMode)) := by
  intro cfg now input s
  constructor <;> intro h <;> rw [checkAndRunUpdate_fetches] <;> simp [h]

/-- Closed instance of `local_mode_always_fetches`: a local-mode tick right
after a fresh snapshot (30 ms later) still calls the source. -/
theorem local_mode_always_fetches_witness :
    (checkAndRunUpdate localConfig 30 (TickInput.parseFail "x")
        { initialState with lastUpdated := some 0 }).2.2 = true :=
  (local_mode_always_fetches localConfig 30 (TickInput.parseFail "x")
    { initialState with lastUpdated := some 0 }).1 rfl

/-! ## Claims about error handling -/

/-- Claim C5: when the payload fails `JSON.parse`, the refresh cycle aborts:
the accepted total, trend, headlines, `lastUpdated` and the recorded error
text are all exactly as before the cycle, nothing is written to the store,
and the user-facing status is exactly what it was at the moment of the
source call — `'loading'`, set at the start of the cycle (line 198) — in
particular it is never flipped to `'error'`. -/
theorem parse_error_soft_failure :
    ∀ (cfg : Config) (now : ℕ) (raw : String) (s : AppState),
      (needsUpdate now s.lastUpdated || cfg.isLocalMode) = true →
      (cfg.isLocalMode || cfg.hasUser) = true →
      (checkAndRunUpdate cfg now (TickInput.parseFail raw) s).1.totalActive
          = s.totalActive ∧
      (checkAndRunUpdate cfg now (TickInput.parseFail raw) s).1.trend = s.trend ∧
      (checkAndRunUpdate cfg now (TickInput.parseFail raw) s).1.headlines
          = s.headlines ∧
      (checkAndRunUpdate cfg now (TickInput.parseFail raw) s).1.lastUpdated
          = s.lastUpdated ∧
      (checkAndRunUpdate cfg now (TickInput.parseFail raw) s).1.errorDetails
          = s.errorDetails ∧
      (checkAndRunUpdate cfg now (TickInput.parseFail raw) s).1.apiStatus
          = ApiStatus.loading ∧
      (checkAndRunUpdate cfg now (TickInput.parseFail raw) s).1.apiStatus
          ≠ ApiStatus.error ∧
      (checkAndRunUpdate cfg now (TickInput.parseFail raw) s).2.1 = none := by
  intro cfg now raw s h1 h2
  rw [checkAndRunUpdate]
  cases hnu : needsUpdate now s.lastUpdated <;> cases hl : cfg.isLocalMode <;>
    cases hu : cfg.hasUser <;> simp_all

/-- Closed instance of `parse_error_soft_failure`: local mode, non-JSON text. -/
theorem parse_error_soft_failure_witness :
    (checkAndRunUpdate localConfig 0 (TickInput.parseFail "not json")
        initialState).1.totalActive = initialState.totalActive ∧
      (checkAndRunUpdate localConfig 0 (TickInput.parseFail "not json")
        initialState).1.trend = initialState.trend ∧
      (checkAndRunUpdate localConfig 0 (TickInput.parseFail "not json")
        initialState).1.headlines = initialState.headlines ∧
      (checkAndRunUpdate localConfig 0 (TickInput.parseFail "not json")
        initialState).1.lastUpdated = initialState.lastUpdated ∧
      (checkAndRunUpdate localConfig 0 (TickInput.parseFail "not json")
        initialState).1.errorDetails = initialState.errorDetails ∧
      (checkAndRunUpdate localConfig 0 (TickInput.parseFail "not json")
        initialState).1.apiStatus = ApiStatus.loading ∧
      (checkAndRunUpdate localConfig 0 (TickInput.parseFail "not json")
        initialState).1.apiStatus ≠ ApiStatus.error ∧
      (checkAndRunUpdate localConfig 0 (TickInput.parseFail "not json")
        initialState).2.1 = none :=
  parse_error_soft_failure localConfig 0 "not json" initialState rfl rfl

/-- Claim C6: a non-success HTTP response makes `callGemini` raise an error
whose message contains the response body; the refresh cycle then records
that message with status `'error'`, leaves the accepted total (and
`lastUpdated`) unchanged, writes nothing to the store, and the periodic
scheduling is unaffected: any later tick makes exactly the same fetch
decision as it would have from the pre-error state. -/
theorem transport_error_reported :
    (∀ (status : ℕ) (body : String),
      ∃ pre, httpErrorMessage status body = pre ++ body) ∧
    (∀ (useSearch : Bool) (status : ℕ) (body : String),
      callGemini useSearch (HttpResponse.failure status body) =
        Except.error (httpErrorMessage status body)) ∧
    (∀ (cfg : Config) (now status : ℕ) (body : String) (s : AppState),
      (needsUpdate now s.lastUpdated || cfg.isLocalMode) = true →
      (cfg.isLocalMode || cfg.hasUser) = true →
      (checkAndRunUpdate cfg now (TickInput.fetchFail status body) s).1.totalActive
          = s.totalActive ∧
      (checkAndRunUpdate cfg now (TickInput.fetchFail status body) s).1.apiStatus
          = ApiStatus.error ∧
      (checkAndRunUpdate cfg now (TickInput.fetchFail status body) s).1.errorDetails
          = httpErrorMessage status body ∧
      (checkAndRunUpdate cfg now (TickInput.fetchFail status body) s).1.lastUpdated
          = s.lastUpdated ∧
      (checkAndRunUpdate cfg now (TickInput.fetchFail status body) s).2.1 = none) ∧
    (∀ (cfg : Config) (now now' status : ℕ) (body : String) (input : TickInput)
        (s : AppState),
      (checkAndRunUpdate cfg now' input
          (checkAndRunUpdate cfg now (TickInput.fetchFail status body) s).1).2.2 =
        (checkAndRunUpdate cfg now' input s).2.2) := by
  refine ⟨fun status body => ⟨"HTTP " ++ toString status ++ ": ", ?_⟩,
    fun _ _ _ => rfl, ?_, ?_⟩
  · rw [httpErrorMessage, String.append_assoc]
  · intro cfg now status body s h1 h2
    rw [checkAndRunUpdate]
    cases hnu : needsUpdate now s.lastUpdated <;> cases hl : cfg.isLocalMode <;>
      cases hu : cfg.hasUser <;> simp_all
  · intro cfg now now' status body input s
    have hlast :
        (checkAndRunUpdate cfg now (TickInput.fetchFail status body) s).1.lastUpdated
          = s.lastUpdated :=
      checkAndRunUpdate_lastUpdated_of_fail cfg now _ s (by intro _ _ _ h; cases h)
    rw [checkAndRunUpdate_fetches, checkAndRunUpdate_fetches, hlast]

/-- Closed instance of `transport_error_reported`: a 503 with body text, in
local mode from the initial state. -/
theorem transport_error_reported_witness :
    (checkAndRunUpdate localConfig 0 (TickInput.fetchFail 503 "overloaded")
        initialState).1.totalActive = initialState.totalActive ∧
      (checkAndRunUpdate localConfig 0 (TickInput.fetchFail 503 "overloaded")
        initialState).1.apiStatus = ApiStatus.error ∧
      (checkAndRunUpdate localConfig 0 (TickInput.fetchFail 503 "overloaded")
        initialState).1.errorDetails = httpErrorMessage 503 "overloaded" ∧
      (checkAndRunUpdate localConfig 0 (TickInput.fetchFail 503 "overloaded")
        initialState).1.lastUpdated = initialState.lastUpdated ∧
      (checkAndRunUpdate localConfig 0 (TickInput.fetchFail 503 "overloaded")
        initialState).2.1 = none :=
  transport_error_reported.2.2.1 localConfig 0 503 "overloaded" initialState rfl rfl

/-! ## Claim about the `total ≥ 0` invariant (violated by the code) -/

/-- Claim C7 fails on the code: the boundary guard
`typeof data.total === 'number' ? data.total : 0` substitutes `0` for
non-numbers but lets negative numbers through, and the stabilizer's bootstrap
branch accepts them unchanged.  From the initial state (accepted total `0`),
the valid JSON payload `{"total": -5, "trend": "down", "headlines": ["x"]}`
makes a local-mode refresh commit the accepted total `-5 < 0`; in shared mode
the same payload writes total `-5` to the store, and the `onSnapshot` guard
(`typeof ... === 'number' && !isNaN(...)`) also passes `-5` into the local
view state.  This contradicts the specified invariant `total ≥ 0`. -/
theorem negative_total_accepted :
    (checkAndRunUpdate localConfig 1000
        (TickInput.parsed (JsonTotal.num (-5)) (some "down") (some ["x"]))
        initialState).1.totalActive = -5 ∧
    (checkAndRunUpdate sharedConfig 1000
        (TickInput.parsed (JsonTotal.num (-5)) (some "down") (some ["x"]))
        initialState).2.1 =
      some { total := -5, trend := some "down", headlines := some ["x"]
             timestamp := 1000, updatedBy := sharedConfig.uid } ∧
    (onSnapshotUpdate
        { total := StoredNum.num (-5), trend := some "down"
          headlines := some ["x"], timestamp := some 1000 }
        initialState).totalActive = -5 ∧
    ((-5 : ℚ) < 0) := by
  have hstab : stabilize 0 (jsonTotalValue (JsonTotal.num (-5))) = -5 := by
    rw [jsonTotalValue, stabilize]
    norm_num
  refine ⟨?_, ?_, rfl, by norm_num⟩
  · rw [checkAndRunUpdate]
    simp only [initialState, localConfig, needsUpdate]
    simp [hstab, initialState]
  · rw [checkAndRunUpdate]
    simp only [initialState, sharedConfig, needsUpdate]
    simp [hstab, initialState]

/-! ## Claims about the display animator -/

/-- Unfolding of `animateStep`. -/
theorem animateStep_eq (t c : ℚ) :
    animateStep t c = if |t - c| < 1 then t else c + (t - c) * (5/100) := rfl

/-- Far from the target (distance at least one unit), a step moves 5% of the
remaining distance. -/
theorem animateStep_of_far (t c : ℚ) (h : 1 ≤ |t - c|) :
    animateStep t c = c + (t - c) * (5/100) := by
  rw [animateStep_eq, if_neg (not_lt.mpr h)]

/-- Within one unit of the target, a step snaps exactly to the target. -/
theorem animateStep_of_near (t c : ℚ) (h : |t - c| < 1) : animateStep t c = t := by
  rw [animateStep_eq, if_pos h]

/-- While every intermediate distance stays at least one unit, the distance
to the target decays geometrically: after `n` steps from `v` the value is
`t - (t - v) * (19/20)^n`. -/
theorem animateStep_iterate_closed (t v : ℚ) :
    ∀ n : ℕ, (∀ k < n, 1 ≤ |t - v| * (19/20)^k) →
      (animateStep t)^[n] v = t - (t - v) * (19/20)^n := by
  intro n
  induction n with
  | zero => intro _; simp
  | succ n ih =>
      intro h
      rw [Function.iterate_succ_apply', ih (fun k hk => h k (Nat.lt_succ_of_lt hk))]
      have hdist : t - (t - (t - v) * (19/20)^n) = (t - v) * (19/20)^n := by ring
      have habs : |(t - v) * ((19:ℚ)/20)^n| = |t - v| * (19/20)^n := by
        rw [abs_mul, abs_pow, abs_of_pos (by norm_num : (0:ℚ) < 19/20)]
      have hfar : 1 ≤ |t - (t - (t - v) * (19/20)^n)| := by
        rw [hdist, habs]
        exact h n (Nat.lt_succ_self n)
      rw [animateStep_of_far _ _ hfar]
      ring

/-- Geometric decay is monotone: if the distance is still at least one unit
after `m` halvings, it was at least one unit at every earlier stage. -/
theorem distance_ge_one_upto (d : ℚ) (m : ℕ) (hd : 0 ≤ d)
    (h : 1 ≤ d * (19/20)^m) : ∀ k ≤ m, 1 ≤ d * (19/20)^k := by
  intro k hk
  calc (1:ℚ) ≤ d * (19/20)^m := h
    _ ≤ d * (19/20)^k :=
      mul_le_mul_of_nonneg_left
        (pow_le_pow_of_le_one (by norm_num) (by norm_num) hk) hd

/-- Starting at `0` with target `1000`, the animator reaches exactly `1000`
after 136 steps (135 geometric steps, then one final snap). -/
theorem animate_converges_from_zero : (animateStep 1000)^[136] 0 = 1000 := by
  have h135 : (animateStep 1000)^[135] 0 = 1000 - (1000 - 0) * (19/20)^135 := by
    apply animateStep_iterate_closed
    intro k hk
    rw [show |(1000:ℚ) - 0| = 1000 by
      rw [show (1000:ℚ) - 0 = 1000 by norm_num,
        abs_of_pos (by norm_num : (0:ℚ) < 1000)]]
    exact distance_ge_one_upto 1000 134 (by norm_num) (by norm_num) k (by omega)
  rw [show (136:ℕ) = 135 + 1 from rfl, Function.iterate_succ_apply', h135]
  apply animateStep_of_near
  rw [show (1000:ℚ) - (1000 - (1000 - 0) * (19/20)^135) = 1000 * (19/20)^135
      by ring,
    abs_of_pos (by positivity)]
  norm_num

/-- A target change mid-convergence: after 20 steps toward `1000` (reaching
about `641.5`), the target switches to `500`; 98 further steps reach exactly
`500`. -/
theorem animate_retarget_converges :
    (animateStep 500)^[98] ((animateStep 1000)^[20] 0) = 500 := by
  have h20 : (animateStep 1000)^[20] 0 = 1000 - (1000 - 0) * (19/20)^20 := by
    apply animateStep_iterate_closed
    intro k hk
    rw [show |(1000:ℚ) - 0| = 1000 by
      rw [show (1000:ℚ) - 0 = 1000 by norm_num,
        abs_of_pos (by norm_num : (0:ℚ) < 1000)]]
    exact distance_ge_one_upto 1000 19 (by norm_num) (by norm_num) k (by omega)
  rw [h20]
  have h97 : (animateStep 500)^[97] (1000 - (1000 - 0) * (19/20)^20) =
      500 - (500 - (1000 - (1000 - 0) * (19/20)^20)) * (19/20)^97 := by
    apply animateStep_iterate_closed
    intro k hk
    rw [show |(500:ℚ) - (1000 - (1000 - 0) * (19/20)^20)|
          = 500 - 1000 * (19/20)^20 by
      rw [abs_of_neg (by norm_num)]
      ring]
    exact distance_ge_one_upto (500 - 1000 * (19/20)^20) 96 (by norm_num)
      (by norm_num) k (by omega)
  rw [show (98:ℕ) = 97 + 1 from rfl, Function.iterate_succ_apply', h97]
  apply animateStep_of_near
  rw [show (500:ℚ) -
        (500 - (500 - (1000 - (1000 - 0) * (19/20)^20)) * (19/20)^97)
      = (1000 * (19/20)^20 - 500) * (19/20)^97 by ring,
    abs_of_neg (by norm_num)]
  norm_num

/-- Below the target, a step strictly increases the displayed value and never
overshoots the target. -/
theorem animateStep_progress (c : ℚ) (h : c < 1000) :
    c < animateStep 1000 c ∧ animateStep 1000 c ≤ 1000 := by
  rw [animateStep_eq]
  by_cases hnear : |(1000:ℚ) - c| < 1
  · rw [if_pos hnear]
    exact ⟨h, le_refl _⟩
  · rw [if_neg hnear]
    have h1 : 1 ≤ |(1000:ℚ) - c| := not_lt.mp hnear
    have h2 : |(1000:ℚ) - c| = 1000 - c := abs_of_pos (by linarith)
    rw [h2] at h1
    constructor <;> linarith

/-- With a non-negative target and a non-negative current value, a step never
produces a negative value. -/
theorem animateStep_nonneg (t c : ℚ) (ht : 0 ≤ t) (hc : 0 ≤ c) :
    0 ≤ animateStep t c := by
  rw [animateStep_eq]
  by_cases hnear : |t - c| < 1
  · rw [if_pos hnear]
    exact ht
  · rw [if_neg hnear]
    linarith

/-- Claim C8: each animation step moves the displayed value by 5% of the
remaining distance when that distance is at least one unit, and snaps exactly
to the target once it is below one unit; starting at 0 with target 1000 steps
are strictly increasing and never overshoot, and exactly 1000 is reached in a
bounded number of steps (136); when the target changes mid-convergence to 500
(here after 20 steps), further steps converge to exactly 500 with no negative
overshoot. -/
theorem animator_convergence :
    (∀ t c : ℚ, 1 ≤ |t - c| → animateStep t c = c + (t - c) * (5/100)) ∧
    (∀ t c : ℚ, |t - c| < 1 → animateStep t c = t) ∧
    (∀ c : ℚ, c < 1000 → c < animateStep 1000 c ∧ animateStep 1000 c ≤ 1000) ∧
    (animateStep 1000)^[136] 0 = 1000 ∧
    (∀ t c : ℚ, 0 ≤ t → 0 ≤ c → 0 ≤ animateStep t c) ∧
    (animateStep 500)^[98] ((animateStep 1000)^[20] 0) = 500 :=
  ⟨animateStep_of_far, animateStep_of_near, animateStep_progress,
    animate_converges_from_zero, animateStep_nonneg, animate_retarget_converges⟩

/-- Closed instance of `animator_convergence`. -/
theorem animator_convergence_witness :
    animateStep 1000 0 = 0 + (1000 - 0) * (5/100) ∧
      animateStep 1000 (999 + 1/2) = 1000 ∧
      (0 < animateStep 1000 0 ∧ animateStep 1000 0 ≤ 1000) ∧
      0 ≤ animateStep 500 0 :=
  ⟨animator_convergence.1 1000 0 (by
      rw [show (1000:ℚ) - 0 = 1000 by norm_num,
        abs_of_pos (by norm_num : (0:ℚ) < 1000)]
      norm_num),
   animator_convergence.2.1 1000 (999 + 1/2) (by
      rw [show (1000:ℚ) - (999 + 1/2) = 1/2 by norm_num,
        abs_of_pos (by norm_num : (0:ℚ) < 1/2)]
      norm_num),
   animator_convergence.2.2.1 0 (by norm_num),
   animator_convergence.2.2.2.2.1 500 0 (by norm_num) (by norm_num)⟩

/-- Claim C9 fails on the code: the guard
`typeof x === 'number' && !isNaN(x) ? x : 0` (lines 170-171) does substitute
zero for non-numeric, undefined and `NaN` inputs, but it passes `±Infinity`
through unchanged, and `Infinity` can reach the animator: `JSON.parse` of
`{"total": 1e999}` yields `Infinity`, the stabilizer bootstrap branch accepts
it into `totalActive`, and one animation step from a finite displayed value
then drives the displayed value itself to `Infinity` (eighth conjunct).  From
there the step computes `Infinity - Infinity = NaN` and returns
`current + NaN * 0.05 = NaN` (ninth conjunct) — and even a `NaN` target
(substituted to zero) against an `Infinity` displayed value returns
`0 - Infinity` escalating to `Infinity + (-Infinity) * 0.05 = NaN` (tenth
conjunct).  This contradicts the claim's conclusion (and the code's own
`// Safety check to prevent NaN` comment, line 169) that a step never
produces a `NaN` displayed value.  The first six conjuncts are the
substitution facts that do hold; the seventh shows the step agrees with the
finite-number core `animateStep` whenever both guarded inputs are finite. -/
theorem animator_infinity_nan :
    (∀ p : JSVal, animateStepJS (JSVal.number JSNumber.nan) p
        = animateStepJS (JSVal.number (JSNumber.num 0)) p) ∧
    (∀ p : JSVal, animateStepJS JSVal.undef p
        = animateStepJS (JSVal.number (JSNumber.num 0)) p) ∧
    (∀ p : JSVal, animateStepJS JSVal.other p
        = animateStepJS (JSVal.number (JSNumber.num 0)) p) ∧
    (∀ t : JSVal, animateStepJS t (JSVal.number JSNumber.nan)
        = animateStepJS t (JSVal.number (JSNumber.num 0))) ∧
    (∀ t : JSVal, animateStepJS t JSVal.undef
        = animateStepJS t (JSVal.number (JSNumber.num 0))) ∧
    (∀ t : JSVal, animateStepJS t JSVal.other
        = animateStepJS t (JSVal.number (JSNumber.num 0))) ∧
    (∀ t c : ℚ, animateStepJS (JSVal.number (JSNumber.num t))
        (JSVal.number (JSNumber.num c)) = JSNumber.num (animateStep t c)) ∧
    animateStepJS (JSVal.number JSNumber.posInf)
        (JSVal.number (JSNumber.num 0)) = JSNumber.posInf ∧
    animateStepJS (JSVal.number JSNumber.posInf)
        (JSVal.number JSNumber.posInf) = JSNumber.nan ∧
    animateStepJS (JSVal.number JSNumber.nan)
        (JSVal.number JSNumber.posInf) = JSNumber.nan := by
  refine ⟨fun _ => rfl, fun _ => rfl, fun _ => rfl, fun _ => rfl, fun _ => rfl,
    fun _ => rfl, ?_, rfl, rfl, rfl⟩
  intro t c
  by_cases h : |t - c| < 1 <;>
    simp [animateStepJS, numOrZero, jsSub, jsAbs, jsLtOne, jsMulPoint05,
      jsAdd, animateStep_eq, h]

end FreedomPulse
